import Mathlib

/-!
Shallow embedding of `scripts/schema_inspector.py`: a schema inspector that
scans a directory of tabular files, infers a semantic role per column,
summarizes each table, and aggregates a ranked list of modeling candidates.

Columns (pandas Series) are modelled as a dtype tag together with a list of
optional values (missing values are `none`); rationals stand in for Python
floats; fallible loading returns `Except`.
-/

namespace SchemaInspector

/-! ### Pandas dtype model -/

/-- Abstraction of a pandas dtype: the categories distinguished by the
dtype predicates used in `infer_role`. -/
inductive Dtype
  | datetime
  | numeric
  | boolean
  | string
  | categorical
  | other
deriving DecidableEq

/-- `pandas.api.types.is_datetime64_any_dtype`. -/
def is_datetime64_any_dtype : Dtype → Bool
  | .datetime => true
  | _ => false

/-- `pandas.api.types.is_numeric_dtype`. In pandas this predicate accepts
`np.bool_` dtypes in addition to the numeric classes (its implementation
checks `classes_and_not_datetimelike(np.number, np.bool_)`), so a boolean
column counts as numeric here. -/
def is_numeric_dtype : Dtype → Bool
  | .numeric => true
  | .boolean => true
  | _ => false

/-- `pandas.api.types.is_bool_dtype`. -/
def is_bool_dtype : Dtype → Bool
  | .boolean => true
  | _ => false

/-- `pandas.api.types.is_string_dtype(c) or pandas.api.types.is_categorical_dtype(c)`,
the combined guard of the categorical branch. -/
def is_string_or_categorical_dtype : Dtype → Bool
  | .string => true
  | .categorical => true
  | _ => false

/-! ### Series model -/

/-- A pandas Series: a dtype tag and the column's cells, `none` for a
missing value. Cell payloads are abstracted to `Int` (only equality of
cells matters to the script). -/
structure Series where
  dtype : Dtype
  values : List (Option Int)
deriving DecidableEq

/-- `series.dropna()`: the non-missing cells, in order. -/
def Series.dropna (s : Series) : List Int := s.values.filterMap id

/-- `len(series)`. -/
def Series.len (s : Series) : Nat := s.values.length

/-- `series.notna().sum()`: how many cells are non-missing. -/
def Series.notnaCount (s : Series) : Nat := s.dropna.length

/-- `series.dropna().nunique()`: distinct count over non-missing values. -/
def Series.nuniqueDropna (s : Series) : Nat := s.dropna.eraseDups.length

/-- `series.nunique(dropna=False)`: distinct count with missing counted as
one category (pandas treats all NaNs as a single value here). -/
def Series.nuniqueAll (s : Series) : Nat := s.values.eraseDups.length

/-- Division that makes the error branch explicit: `none` on a zero
denominator, otherwise the exact quotient. -/
def safeDiv (a b : ℚ) : Option ℚ := if b = 0 then none else some (a / b)

/-- `series.notna().mean() * 100` guarded by `if len(series) else 0.0`
(line 122 of the script). -/
def Series.nonNullPct (s : Series) : ℚ :=
  if s.len ≠ 0 then (safeDiv (s.notnaCount : ℚ) (s.len : ℚ)).getD 0 * 100 else 0

/-- `column.nunique(dropna=False) / max(len(column), 1)` (line 92). -/
def Series.uniqueRatio (s : Series) : ℚ :=
  (safeDiv (s.nuniqueAll : ℚ) ((max s.len 1 : ℕ) : ℚ)).getD 0

/-! ### String helpers (Python `str.lower`, `in`, `endswith`) -/

/-- Python `name.lower()` (ASCII range, which is all the script compares). -/
def lowerStr (s : String) : String := String.mk (s.data.map Char.toLower)

/-- Does `s` start with `pat`? -/
def beginsWithCL (pat s : List Char) : Bool :=
  match pat, s with
  | [], _ => true
  | _ :: _, [] => false
  | a :: as, b :: bs => a == b && beginsWithCL as bs

/-- Does the character list contain `pat` as a contiguous run? -/
def containsCL (pat : List Char) : List Char → Bool
  | [] => beginsWithCL pat []
  | c :: t => beginsWithCL pat (c :: t) || containsCL pat t

/-- Python `pat in s` on strings. -/
def strContains (s pat : String) : Bool := containsCL pat.data s.data

/-- Python `s.endswith(pat)`. -/
def strEndsWith (s pat : String) : Bool := beginsWithCL pat.data.reverse s.data.reverse

/-! ### Role inference (`infer_role`, lines 63-97) -/

/-- Python truthiness of an `Optional[str]`: `None` and `""` are falsy. -/
def pyTruthyStr : Option String → Bool
  | none => false
  | some s => !(s == "")

/-- The guard of line 67: `if target and name == target`. -/
def targetMatch (name : String) (target : Option String) : Bool :=
  pyTruthyStr target && target == some name

/-- The guard of line 70:
`"id" in lowered or "uuid" in lowered or lowered.endswith("_cd")`. -/
def idNameMatch (name : String) : Bool :=
  strContains (lowerStr name) "id" || strContains (lowerStr name) "uuid" ||
    strEndsWith (lowerStr name) "_cd"

/-- `infer_role(column, name, target)`: role string and notes list, with the
role names kept verbatim from the script (Portuguese). -/
def infer_role (column : Series) (name : String) (target : Option String) :
    String × List String :=
  if targetMatch name target then ("target", [])
  else if idNameMatch name then ("id", ["possível identificador"])
  else if is_datetime64_any_dtype column.dtype then ("datetime", [])
  else if is_numeric_dtype column.dtype then
    let unique_values := column.nuniqueDropna
    ("numérica",
      (if unique_values ≤ 1 then ["coluna constante"] else []) ++
      (if unique_values == 2 then ["binária"] else []) ++
      (if strContains (lowerStr name) "percent" || strContains (lowerStr name) "rate" then
        ["verificar escala percentual"] else []))
  else if is_bool_dtype column.dtype then ("binária", [])
  else if is_string_or_categorical_dtype column.dtype then
    ("categórica", if column.uniqueRatio > 9/10 then ["alta cardinalidade"] else [])
  else ("desconhecido", [])

/-! ### Summaries (`ColumnSummary`, `TableSummary`, `summarize_table`) -/

/-- `str(series.dtype)`, abstracted per dtype tag. -/
def dtypeName : Dtype → String
  | .datetime => "datetime64[ns]"
  | .numeric => "float64"
  | .boolean => "bool"
  | .string => "object"
  | .categorical => "category"
  | .other => "other"

/-- The `ColumnSummary` dataclass (lines 28-36). -/
structure ColumnSummary where
  name : String
  dtype : String
  role : String
  non_null_pct : ℚ
  unique_values : Nat
  example_values : List String
  notes : List String
deriving DecidableEq

/-- The per-column body of the loop in `summarize_table` (lines 118-136). -/
def columnSummaryOf (name : String) (series : Series) (target : Option String) :
    ColumnSummary :=
  let rn := infer_role series name target
  { name := name
    dtype := dtypeName series.dtype
    role := rn.1
    non_null_pct := series.nonNullPct
    unique_values := if series.len ≠ 0 then series.nuniqueAll else 0
    example_values := (series.dropna.eraseDups.take 3).map toString
    notes := rn.2 }

/-- An in-memory dataframe: row count (`len(df)`) and the named columns in
their original order. -/
structure DataFrame where
  rowCount : Nat
  cols : List (String × Series)
deriving DecidableEq

/-- The `TableSummary` dataclass (lines 47-51); the file identifier is the
base file name (`file_path.name`), which is all the aggregation uses. -/
structure TableSummary where
  fileName : String
  row_count : Nat
  column_summaries : List ColumnSummary
deriving DecidableEq

/-! ### Loader (`load_table`, lines 100-110) and directory scan -/

instance {ε α : Type _} [DecidableEq ε] [DecidableEq α] : DecidableEq (Except ε α)
  | .ok x, .ok y => decidable_of_iff (x = y) (by simp)
  | .error x, .error y => decidable_of_iff (x = y) (by simp)
  | .ok _, .error _ => .isFalse fun h => Except.noConfusion h
  | .error _, .ok _ => .isFalse fun h => Except.noConfusion h

/-- `SUPPORTED_EXTENSIONS` (line 25). -/
def SUPPORTED_EXTENSIONS : List String := [".csv", ".parquet", ".feather", ".xlsx", ".xls"]

/-- A file on disk, abstracted: its base name, its extension (with the dot),
and what each pandas reader would produce on it (`Except.error` models a
raised read exception). -/
structure SourceFile where
  fileName : String
  suffix : String
  readCsv : Option Nat → Except String DataFrame
  readParquet : Except String DataFrame
  readFeather : Except String DataFrame
  readExcel : Option Nat → Except String DataFrame

/-- `load_table(path, sample_rows)`: dispatch on the lowercased extension,
`ValueError` on anything unsupported. -/
def load_table (f : SourceFile) (sample_rows : Option Nat) : Except String DataFrame :=
  let suffix := lowerStr f.suffix
  if suffix == ".csv" then f.readCsv sample_rows
  else if suffix == ".parquet" then f.readParquet
  else if suffix == ".feather" then f.readFeather
  else if suffix == ".xlsx" || suffix == ".xls" then f.readExcel sample_rows
  else Except.error ("Unsupported file type: " ++ suffix)

/-- `summarize_table(path, target, sample_rows)` (lines 113-138): any load
error propagates; otherwise every column is summarized in order. -/
def summarize_table (f : SourceFile) (target : Option String) (sample_rows : Option Nat) :
    Except String TableSummary :=
  (load_table f sample_rows).map fun df =>
    { fileName := f.fileName
      row_count := df.rowCount
      column_summaries := df.cols.map fun p => columnSummaryOf p.1 p.2 target }

/-- `scan_data_dir` (lines 166-169): the directory listing (already sorted,
regular files) filtered to the supported extensions, case-insensitively. -/
def scan_data_dir (files : List SourceFile) : List SourceFile :=
  files.filter fun f => decide (lowerStr f.suffix ∈ SUPPORTED_EXTENSIONS)

/-! ### Modeling-candidate aggregation (`main`, lines 199-221) -/

/-- The value stored per candidate key (lines 204-208). -/
structure CandInfo where
  non_null_pct : ℚ
  unique_values : Nat
  role : String
deriving DecidableEq

/-- The filter of line 202:
`col.role in {"numérica", "categórica", "binária"} and col.non_null_pct >= 60`. -/
def qualifies (c : ColumnSummary) : Bool :=
  (c.role == "numérica" || c.role == "categórica" || c.role == "binária") &&
    decide ((60 : ℚ) ≤ c.non_null_pct)

/-- The key of line 203: `f"{table_summary.file_path.name}::{col.name}"`. -/
def candKey (t : TableSummary) (c : ColumnSummary) : String :=
  t.fileName ++ "::" ++ c.name

/-- Python dict assignment `d[k] = v`: replace in place if the key exists,
else append at the end (insertion order is preserved). -/
def dictInsert (d : List (String × CandInfo)) (k : String) (v : CandInfo) :
    List (String × CandInfo) :=
  if d.any (fun p => p.1 == k) then d.map (fun p => if p.1 == k then (k, v) else p)
  else d ++ [(k, v)]

/-- One iteration of the inner loop of lines 201-208. -/
def candStep (t : TableSummary) (d : List (String × CandInfo)) (c : ColumnSummary) :
    List (String × CandInfo) :=
  if qualifies c then
    dictInsert d (candKey t c)
      { non_null_pct := c.non_null_pct, unique_values := c.unique_values, role := c.role }
  else d

/-- The `modeling_candidates` dict after the loop of lines 199-208, as an
insertion-ordered association list. -/
def modelingCandidates (ts : List TableSummary) : List (String × CandInfo) :=
  ts.foldl (fun d t => t.column_summaries.foldl (candStep t) d) []

/-- The comparison induced by `sorted(..., key=lambda item: (-item[1]["non_null_pct"], item[0]))`
(lines 215-218): descending coverage, ties broken by ascending key. -/
def candLE (a b : String × CandInfo) : Prop :=
  b.2.non_null_pct < a.2.non_null_pct ∨
    (a.2.non_null_pct = b.2.non_null_pct ∧ a.1 ≤ b.1)

instance : DecidableRel candLE := fun a b => by unfold candLE; infer_instance

/-- The candidate list in the order the report prints it. -/
def sortedCandidates (ts : List TableSummary) : List (String × CandInfo) :=
  List.insertionSort candLE (modelingCandidates ts)

/-! ### Main control flow (`main`, lines 172-240), rendering omitted -/

/-- Exit code and collected summaries of `main` on an existing data
directory: scan, per-file summarize with every exception caught (a failed
file is skipped), exit 1 when nothing was found or nothing loaded. -/
def runMain (files : List SourceFile) (target : Option String) (sample_rows : Option Nat) :
    Nat × List TableSummary :=
  let table_paths := scan_data_dir files
  if table_paths.isEmpty then (1, [])
  else
    let table_summaries := table_paths.filterMap fun f =>
      (summarize_table f target sample_rows).toOption
    if table_summaries.isEmpty then (1, []) else (0, table_summaries)

/-! ### Concrete inputs used by the witnesses -/

/-- An empty dataframe. -/
def dfEmpty : DataFrame := ⟨0, []⟩

/-- A `.txt` file whose readers would all succeed: only the dispatch can
reject it. -/
def txtFile : SourceFile :=
  ⟨"notes.txt", ".txt", fun _ => Except.ok dfEmpty, Except.ok dfEmpty,
    Except.ok dfEmpty, fun _ => Except.ok dfEmpty⟩

/-- A loadable `.csv` file. -/
def csvLowerFile : SourceFile :=
  ⟨"data.csv", ".csv", fun _ => Except.ok dfEmpty, Except.ok dfEmpty,
    Except.ok dfEmpty, fun _ => Except.ok dfEmpty⟩

/-- The same file with the extension upper-cased. -/
def csvUpperFile : SourceFile := { csvLowerFile with suffix := ".CSV" }

/-! ## Claims -/

/-- C1: if a designated target name is supplied (Python-truthy, i.e.
non-empty) and equals the column name exactly, `infer_role` returns role
`"target"` with an empty notes list, whatever the column's dtype, values,
cardinality, or name patterns — the target check precedes every other
rule. -/
theorem C1_target_overrides_all (column : Series) (t : String) (h : t ≠ "") :
    infer_role column t (some t) = ("target", []) := by
  have ht : targetMatch t (some t) = true := by
    simp [targetMatch, pyTruthyStr, h]
  simp [infer_role, ht]

theorem C1_target_overrides_all_witness :
    infer_role ⟨Dtype.numeric, [some 0, some 1]⟩ "user_id" (some "user_id") = ("target", []) :=
  C1_target_overrides_all ⟨Dtype.numeric, [some 0, some 1]⟩ "user_id" (by decide)

/-- C9: an empty-string designated target is Python-falsy, hence treated as
not set: `infer_role` behaves exactly as with no target, and in particular a
column named `""` does not get role `"target"` but falls through to the
remaining rules. -/
theorem C9_empty_target_treated_as_unset (column : Series) (name : String) :
    infer_role column name (some "") = infer_role column name none ∧
    (infer_role column "" (some "")).1 ≠ "target" := by
  constructor
  · simp [infer_role, targetMatch, pyTruthyStr]
  · have ht : targetMatch "" (some "") = false := by decide
    have hid : idNameMatch "" = false := by decide
    cases hd : column.dtype <;>
      simp [infer_role, ht, hid, hd, is_datetime64_any_dtype, is_numeric_dtype,
        is_bool_dtype, is_string_or_categorical_dtype]

/-- C5: a boolean-dtype column that matches none of the target/id/datetime
rules does NOT get role `"binária"` with no notes, contrary to the claim:
pandas' `is_numeric_dtype` is true for bool dtypes, so the numeric branch
(rule 4) captures it first and even attaches the `"binária"` note. The
`is_bool_dtype` branch of the script is unreachable. -/
theorem C5_bool_dtype_takes_numeric_branch :
    infer_role ⟨Dtype.boolean, [some 1, some 0]⟩ "flag" none = ("numérica", ["binária"]) := by
  decide

/-- C3 (counterexample): a numeric column with exactly 2 distinct
non-missing values does NOT carry the `"binária"` note when its name matches
the id rule — the id rule returns first. -/
theorem C3_counterexample :
    (⟨Dtype.numeric, [some 0, some 1]⟩ : Series).nuniqueDropna = 2 ∧
    "binária" ∉ (infer_role ⟨Dtype.numeric, [some 0, some 1]⟩ "user_id" none).2 := by
  decide

/-- C3 (amended): a numeric-dtype column with exactly 2 distinct non-missing
values carries the `"binária"` note provided its name matches neither the
target rule nor the id-name rule. -/
theorem C3_binary_note (column : Series) (name : String) (target : Option String)
    (h1 : targetMatch name target = false) (h2 : idNameMatch name = false)
    (h3 : column.dtype = Dtype.numeric) (h4 : column.nuniqueDropna = 2) :
    "binária" ∈ (infer_role column name target).2 := by
  simp [infer_role, h1, h2, h3, h4, is_datetime64_any_dtype, is_numeric_dtype]

theorem C3_binary_note_witness :
    "binária" ∈ (infer_role ⟨Dtype.numeric, [some 3, some 7]⟩ "churn_flag" none).2 :=
  C3_binary_note ⟨Dtype.numeric, [some 3, some 7]⟩ "churn_flag" none
    (by decide) (by decide) rfl (by decide)

/-- C4 (counterexample): a string column whose distinct-including-missing /
row-count ratio exceeds 0.9 does NOT always get the `"alta cardinalidade"`
note and role `"categórica"`: a name matching the id rule wins first. -/
theorem C4_counterexample :
    (⟨Dtype.string, [some 0, some 1]⟩ : Series).uniqueRatio > 9/10 ∧
    (infer_role ⟨Dtype.string, [some 0, some 1]⟩ "uid" none).1 = "id" ∧
    "alta cardinalidade" ∉ (infer_role ⟨Dtype.string, [some 0, some 1]⟩ "uid" none).2 := by
  refine ⟨?_, by decide, by decide⟩
  have hn : (⟨Dtype.string, [some 0, some 1]⟩ : Series).nuniqueAll = 2 := by decide
  have hl : (⟨Dtype.string, [some 0, some 1]⟩ : Series).len = 2 := by decide
  unfold Series.uniqueRatio
  rw [hn, hl]
  norm_num [safeDiv]

/-- C4 (amended): a string/categorical-dtype column whose
distinct-including-missing / row-count ratio exceeds 0.9 gets role
`"categórica"` with the `"alta cardinalidade"` note, provided its name
matches neither the target rule nor the id-name rule. -/
theorem C4_high_cardinality (column : Series) (name : String) (target : Option String)
    (h1 : targetMatch name target = false) (h2 : idNameMatch name = false)
    (h3 : is_string_or_categorical_dtype column.dtype = true)
    (h4 : column.uniqueRatio > 9/10) :
    infer_role column name target = ("categórica", ["alta cardinalidade"]) := by
  have hd : column.dtype = Dtype.string ∨ column.dtype = Dtype.categorical := by
    cases h : column.dtype <;> simp_all [is_string_or_categorical_dtype]
  rcases hd with h | h <;>
    simp [infer_role, h1, h2, h, is_datetime64_any_dtype, is_numeric_dtype,
      is_bool_dtype, is_string_or_categorical_dtype, h4]

theorem C4_high_cardinality_witness :
    infer_role ⟨Dtype.string, [some 0, some 1]⟩ "plan" none =
      ("categórica", ["alta cardinalidade"]) := by
  refine C4_high_cardinality ⟨Dtype.string, [some 0, some 1]⟩ "plan" none
    (by decide) (by decide) (by decide) ?_
  have hn : (⟨Dtype.string, [some 0, some 1]⟩ : Series).nuniqueAll = 2 := by decide
  have hl : (⟨Dtype.string, [some 0, some 1]⟩ : Series).len = 2 := by decide
  unfold Series.uniqueRatio
  rw [hn, hl]
  norm_num [safeDiv]

/-- C6: for a column of a 0-row table the summarizer yields coverage `0`
and distinct count `0`, the categorical ratio defaults to `0`, and the two
divisions of the script stay clear of their zero-denominator branch: the
ratio's denominator `max(len, 1)` is never zero, and the coverage division
only runs under the `len ≠ 0` guard. -/
theorem C6_zero_rows (name : String) (series : Series) (target : Option String)
    (h : series.values = []) :
    (columnSummaryOf name series target).non_null_pct = 0 ∧
    (columnSummaryOf name series target).unique_values = 0 ∧
    series.uniqueRatio = 0 ∧
    (safeDiv (series.nuniqueAll : ℚ) ((max series.len 1 : ℕ) : ℚ)).isSome = true ∧
    (series.len ≠ 0 → (safeDiv (series.notnaCount : ℚ) (series.len : ℚ)).isSome = true) := by
  have hlen : series.len = 0 := by simp [Series.len, h]
  have hmaxpos : (0 : ℚ) < (series.len : ℚ) ⊔ 1 :=
    lt_of_lt_of_le one_pos (le_max_right _ _)
  have hmax : ((series.len : ℚ) ⊔ 1) ≠ 0 := ne_of_gt hmaxpos
  refine ⟨?_, ?_, ?_, ?_, ?_⟩
  · simp [columnSummaryOf, Series.nonNullPct, hlen]
  · simp [columnSummaryOf, hlen]
  · have hn : series.nuniqueAll = 0 := by
      simp only [Series.nuniqueAll, h]
      rfl
    simp [Series.uniqueRatio, hn, safeDiv, hmax]
  · simp [safeDiv, hmax]
  · intro hs
    have hq : (series.len : ℚ) ≠ 0 := Nat.cast_ne_zero.mpr hs
    simp [safeDiv, hq]

theorem C6_zero_rows_witness :
    (columnSummaryOf "col" ⟨Dtype.string, []⟩ none).non_null_pct = 0 ∧
    (columnSummaryOf "col" ⟨Dtype.string, []⟩ none).unique_values = 0 ∧
    (⟨Dtype.string, []⟩ : Series).uniqueRatio = 0 ∧
    (safeDiv ((⟨Dtype.string, []⟩ : Series).nuniqueAll : ℚ)
      ((max (⟨Dtype.string, []⟩ : Series).len 1 : ℕ) : ℚ)).isSome = true ∧
    ((⟨Dtype.string, []⟩ : Series).len ≠ 0 →
      (safeDiv ((⟨Dtype.string, []⟩ : Series).notnaCount : ℚ)
        ((⟨Dtype.string, []⟩ : Series).len : ℚ)).isSome = true) :=
  C6_zero_rows "col" ⟨Dtype.string, []⟩ none rfl

/-- `summarize_table` succeeds exactly when `load_table` does: summarizing
itself never raises, and a load error propagates. -/
theorem summarize_isOk_iff (f : SourceFile) (target : Option String)
    (sample : Option Nat) :
    (summarize_table f target sample).isOk = (load_table f sample).isOk := by
  unfold summarize_table
  cases load_table f sample <;> rfl

/-- C8: the loader dispatches on the lowercased file extension: it can
succeed only for `SUPPORTED_EXTENSIONS`, any other extension yields the
unsupported-format `ValueError`, and `summarize_table` fails exactly when
`load_table` fails. -/
theorem C8_loader_dispatch (f : SourceFile) (target : Option String) (sample : Option Nat) :
    ((load_table f sample).isOk = true → lowerStr f.suffix ∈ SUPPORTED_EXTENSIONS) ∧
    (lowerStr f.suffix ∉ SUPPORTED_EXTENSIONS →
      load_table f sample = Except.error ("Unsupported file type: " ++ lowerStr f.suffix)) ∧
    ((summarize_table f target sample).isOk = true ↔ (load_table f sample).isOk = true) := by
  have herr : lowerStr f.suffix ∉ SUPPORTED_EXTENSIONS →
      load_table f sample = Except.error ("Unsupported file type: " ++ lowerStr f.suffix) := by
    intro hmem
    simp only [SUPPORTED_EXTENSIONS, List.mem_cons, List.not_mem_nil, or_false,
      not_or] at hmem
    obtain ⟨h1, h2, h3, h4, h5⟩ := hmem
    unfold load_table
    simp [h1, h2, h3, h4, h5]
  refine ⟨?_, herr, by rw [summarize_isOk_iff]⟩
  intro hok
  by_contra hmem
  rw [herr hmem] at hok
  simp [Except.isOk, Except.toBool] at hok

theorem C8_loader_dispatch_witness :
    load_table txtFile none = Except.error "Unsupported file type: .txt" ∧
    ((summarize_table txtFile none none).isOk = true ↔ (load_table txtFile none).isOk = true) := by
  have h := C8_loader_dispatch txtFile none none
  refine ⟨?_, h.2.2⟩
  have heq : ("Unsupported file type: " ++ lowerStr txtFile.suffix) =
      "Unsupported file type: .txt" := by decide
  rw [← heq]
  exact h.2.1 (by decide)

/-- C10: extension recognition is case-insensitive at both points: a file
whose extension lowers to the same string as another's is dispatched by
`load_table` to the identical reader, and any listed file whose lowercased
extension is supported is kept by the directory scan. -/
theorem C10_case_insensitive (f g : SourceFile) (files : List SourceFile)
    (sample : Option Nat)
    (hsuffix : lowerStr g.suffix = lowerStr f.suffix)
    (hcsv : g.readCsv = f.readCsv) (hpq : g.readParquet = f.readParquet)
    (hft : g.readFeather = f.readFeather) (hxl : g.readExcel = f.readExcel) :
    load_table g sample = load_table f sample ∧
    (g ∈ files → lowerStr f.suffix ∈ SUPPORTED_EXTENSIONS → g ∈ scan_data_dir files) := by
  constructor
  · unfold load_table
    rw [hsuffix, hcsv, hpq, hft, hxl]
  · intro hmem hsup
    unfold scan_data_dir
    rw [List.mem_filter]
    exact ⟨hmem, by simp [hsuffix, hsup]⟩

theorem C10_case_insensitive_witness :
    load_table csvUpperFile none = load_table csvLowerFile none ∧
    csvUpperFile ∈ scan_data_dir [csvUpperFile] := by
  have h := C10_case_insensitive csvLowerFile csvUpperFile [csvUpperFile] none
    (by decide) rfl rfl rfl rfl
  exact ⟨h.1, h.2 (List.mem_singleton.mpr rfl) (by decide)⟩

/-- C7: a per-file load failure only drops that file: the run keeps every
successfully loading file's summary and nothing else, and the exit code is
1 exactly when the scan finds nothing or every found file fails to load,
and 0 otherwise. -/
theorem C7_per_file_failure_isolated (files : List SourceFile) (target : Option String)
    (sample : Option Nat) :
    ((runMain files target sample).1 = 0 ∨ (runMain files target sample).1 = 1) ∧
    ((runMain files target sample).1 = 1 ↔
      scan_data_dir files = [] ∨
        ∀ f ∈ scan_data_dir files, (load_table f sample).isOk = false) ∧
    (∀ ts : TableSummary, ts ∈ (runMain files target sample).2 ↔
      ∃ f ∈ scan_data_dir files, summarize_table f target sample = Except.ok ts) := by
  have htoopt : ∀ f : SourceFile, ((summarize_table f target sample).toOption = none) ↔
      (load_table f sample).isOk = false := by
    intro f
    rw [← summarize_isOk_iff f target sample]
    cases summarize_table f target sample <;>
      simp [Except.toOption, Except.isOk, Except.toBool]
  have hsome : ∀ (f : SourceFile) (ts : TableSummary),
      ((summarize_table f target sample).toOption = some ts) ↔
      summarize_table f target sample = Except.ok ts := by
    intro f ts
    cases summarize_table f target sample <;> simp [Except.toOption]
  unfold runMain
  by_cases hscan : (scan_data_dir files).isEmpty = true
  · have h0 : scan_data_dir files = [] := List.isEmpty_iff.mp hscan
    rw [if_pos hscan]
    refine ⟨Or.inr rfl, iff_of_true rfl (Or.inl h0), ?_⟩
    intro ts
    simp [h0]
  · rw [if_neg hscan]
    have h0 : ¬ scan_data_dir files = [] := fun hc => hscan (by simp [hc])
    by_cases hsum :
        ((scan_data_dir files).filterMap fun f =>
          (summarize_table f target sample).toOption).isEmpty = true
    · have hnil : ((scan_data_dir files).filterMap fun f =>
          (summarize_table f target sample).toOption) = [] := List.isEmpty_iff.mp hsum
      have hall : ∀ f ∈ scan_data_dir files, (load_table f sample).isOk = false := by
        intro f hf
        exact (htoopt f).mp (List.filterMap_eq_nil_iff.mp hnil f hf)
      rw [if_pos hsum]
      refine ⟨Or.inr rfl, iff_of_true rfl (Or.inr hall), ?_⟩
      intro ts
      constructor
      · intro hmem
        exact absurd hmem (List.not_mem_nil ts)
      · rintro ⟨f, hf, hfs⟩
        have hopt : (summarize_table f target sample).toOption = some ts :=
          (hsome f ts).mpr hfs
        rw [List.filterMap_eq_nil_iff.mp hnil f hf] at hopt
        exact Option.noConfusion hopt
    · have hne : ((scan_data_dir files).filterMap fun f =>
          (summarize_table f target sample).toOption) ≠ [] := fun hc => hsum (by simp [hc])
      have hex : ∃ f ∈ scan_data_dir files, (load_table f sample).isOk = true := by
        rcases List.exists_mem_of_ne_nil _ hne with ⟨ts, hts⟩
        rcases List.mem_filterMap.mp hts with ⟨f, hf, hfs⟩
        refine ⟨f, hf, ?_⟩
        rw [← summarize_isOk_iff f target sample]
        cases hst : summarize_table f target sample
        · rw [hst] at hfs; exact Option.noConfusion hfs
        · rfl
      rw [if_neg hsum]
      refine ⟨Or.inl rfl, ?_, ?_⟩
      · refine iff_of_false (by simp) ?_
        rw [not_or]
        refine ⟨h0, ?_⟩
        intro hall
        rcases hex with ⟨f, hf, hok⟩
        rw [hall f hf] at hok
        exact Bool.noConfusion hok
      · intro ts
        rw [List.mem_filterMap]
        constructor
        · rintro ⟨f, hf, hfs⟩
          exact ⟨f, hf, (hsome f ts).mp hfs⟩
        · rintro ⟨f, hf, hfs⟩
          exact ⟨f, hf, (hsome f ts).mpr hfs⟩

/-- A key is present after a Python dict assignment iff it was present
before or is the assigned key. -/
theorem mem_keys_dictInsert (d : List (String × CandInfo)) (k : String) (v : CandInfo)
    (x : String) :
    x ∈ (dictInsert d k v).map Prod.fst ↔ x ∈ d.map Prod.fst ∨ x = k := by
  unfold dictInsert
  by_cases h : d.any (fun p => p.1 == k) = true
  · rw [if_pos h]
    have hk : k ∈ d.map Prod.fst := by
      rcases List.any_eq_true.mp h with ⟨p, hp, hpk⟩
      exact List.mem_map.mpr ⟨p, hp, beq_iff_eq.mp hpk⟩
    have hmap : (d.map (fun p => if p.1 == k then (k, v) else p)).map Prod.fst
        = d.map Prod.fst := by
      rw [List.map_map]
      refine List.map_congr_left ?_
      intro p _
      by_cases hp : (p.1 == k) = true
      · simp only [Function.comp_apply, hp, if_true]
        exact (beq_iff_eq.mp hp).symm
      · have hp' : p.1 ≠ k := fun hc => hp (beq_iff_eq.mpr hc)
        simp [hp']
    rw [hmap]
    constructor
    · exact Or.inl
    · rintro (hx | rfl)
      · exact hx
      · exact hk
  · rw [if_neg h, List.map_append]
    simp [List.mem_append]

/-- Keys accumulated by the inner (per-column) candidate loop. -/
theorem mem_keys_foldl_cols (t : TableSummary) (cols : List ColumnSummary)
    (d : List (String × CandInfo)) (x : String) :
    x ∈ (cols.foldl (candStep t) d).map Prod.fst ↔
      x ∈ d.map Prod.fst ∨ ∃ c ∈ cols, qualifies c = true ∧ x = candKey t c := by
  induction cols generalizing d with
  | nil => simp
  | cons c cs ih =>
    rw [List.foldl_cons, ih, List.exists_mem_cons_iff]
    unfold candStep
    by_cases hq : qualifies c = true
    · rw [if_pos hq, mem_keys_dictInsert]
      constructor
      · rintro ((hx | rfl) | hex)
        · exact Or.inl hx
        · exact Or.inr (Or.inl ⟨hq, rfl⟩)
        · exact Or.inr (Or.inr hex)
      · rintro (hx | (⟨_, rfl⟩ | hex))
        · exact Or.inl (Or.inl hx)
        · exact Or.inl (Or.inr rfl)
        · exact Or.inr hex
    · rw [if_neg hq]
      constructor
      · rintro (hx | hex)
        · exact Or.inl hx
        · exact Or.inr (Or.inr hex)
      · rintro (hx | (⟨hq', _⟩ | hex))
        · exact Or.inl hx
        · exact absurd hq' hq
        · exact Or.inr hex

/-- Keys accumulated by the outer (per-table) candidate loop. -/
theorem mem_keys_foldl_tables (tss : List TableSummary)
    (d : List (String × CandInfo)) (x : String) :
    x ∈ (tss.foldl (fun d t => t.column_summaries.foldl (candStep t) d) d).map Prod.fst ↔
      x ∈ d.map Prod.fst ∨
        ∃ t ∈ tss, ∃ c ∈ t.column_summaries, qualifies c = true ∧ x = candKey t c := by
  induction tss generalizing d with
  | nil => simp
  | cons t ts ih =>
    rw [List.foldl_cons, ih, mem_keys_foldl_cols, List.exists_mem_cons_iff]
    exact or_assoc

instance : IsTotal (String × CandInfo) candLE := by
  constructor
  intro a b
  rcases lt_trichotomy a.2.non_null_pct b.2.non_null_pct with h | h | h
  · exact Or.inr (Or.inl h)
  · rcases le_total a.1 b.1 with hk | hk
    · exact Or.inl (Or.inr ⟨h, hk⟩)
    · exact Or.inr (Or.inr ⟨h.symm, hk⟩)
  · exact Or.inl (Or.inl h)

instance : IsTrans (String × CandInfo) candLE := by
  constructor
  intro a b c hab hbc
  rcases hab with h1 | ⟨h1, k1⟩
  · rcases hbc with h2 | ⟨h2, k2⟩
    · exact Or.inl (lt_trans h2 h1)
    · exact Or.inl (h2 ▸ h1)
  · rcases hbc with h2 | ⟨h2, k2⟩
    · exact Or.inl (by rw [h1]; exact h2)
    · exact Or.inr ⟨h1.trans h2, le_trans k1 k2⟩

/-- C2: a key appears in the modeling-candidate list iff some summarized
column has role numeric/categorical/binary and coverage ≥ 60, the key being
`"<file-name>::<column-name>"`; and the printed list is ordered by
descending coverage with ties broken by ascending key. -/
theorem C2_candidate_selection_and_order (ts : List TableSummary) (x : String) :
    (x ∈ (sortedCandidates ts).map Prod.fst ↔
      ∃ t ∈ ts, ∃ c ∈ t.column_summaries,
        ((c.role = "numérica" ∨ c.role = "categórica" ∨ c.role = "binária") ∧
          (60 : ℚ) ≤ c.non_null_pct) ∧
        x = t.fileName ++ "::" ++ c.name) ∧
    (sortedCandidates ts).Sorted (fun a b =>
      b.2.non_null_pct < a.2.non_null_pct ∨
        (a.2.non_null_pct = b.2.non_null_pct ∧ a.1 ≤ b.1)) := by
  constructor
  · have hperm : (sortedCandidates ts).Perm (modelingCandidates ts) :=
      List.perm_insertionSort candLE (modelingCandidates ts)
    rw [(hperm.map Prod.fst).mem_iff]
    unfold modelingCandidates
    rw [mem_keys_foldl_tables]
    simp only [List.map_nil, List.not_mem_nil, false_or, qualifies, candKey,
      Bool.and_eq_true, Bool.or_eq_true, beq_iff_eq, decide_eq_true_eq, or_assoc]
  · exact List.sorted_insertionSort candLE (modelingCandidates ts)

end SchemaInspector

